import Mathlib

/-!
Shallow embedding of `cmk/gui/plugins/openapi/livestatus_helpers/testing.py`
(Checkmk's mock LiveStatus connection used for testing).

Python strings are modeled as Lean `String` and manipulated through their
`List Char` code-point data, which matches Python-3 string semantics
(indexing, slicing and `len` are all per code point).  Python exceptions are
modeled with `Except String` (the message mirrors the source's message) or,
for pure helpers that only ever raise one kind of error, with `Option`.
Dictionaries are modeled as insertion-ordered association lists with
update-in-place semantics (`insertReplace`), matching Python `dict`.
-/

-- ## Basic Python string semantics on code-point lists

/-- The whitespace characters recognized by Python's `str.split()` (ASCII
subset; exotic unicode whitespace is outside the modeled subset). -/
def isPySpace (c : Char) : Bool :=
  c = ' ' || c = '\t' || c = '\n' || c = '\r' || c = '\x0b' || c = '\x0c'

/-- The line boundary characters recognized by Python's `str.splitlines`. -/
def isLineBreakChar (c : Char) : Bool :=
  c = '\n' || c = '\r' || c = '\x0b' || c = '\x0c' ||
  c = '\x1c' || c = '\x1d' || c = '\x1e' || c = '\x85' ||
  c = '\u2028' || c = '\u2029'

/-- Worker for `pySplitlines`: `acc` is the current line, reversed.
A `"\r\n"` pair counts as a single boundary; a trailing boundary does not
produce a final empty line (matching Python's `str.splitlines`). -/
def splitlinesGo : List Char → List Char → List String
  | [], acc => if acc.isEmpty then [] else [String.mk acc.reverse]
  | '\r' :: '\n' :: rest, acc => String.mk acc.reverse :: splitlinesGo rest []
  | c :: rest, acc =>
    if isLineBreakChar c then String.mk acc.reverse :: splitlinesGo rest []
    else splitlinesGo rest (c :: acc)

/-- Python `str.splitlines()`. -/
def pySplitlines (s : String) : List String :=
  splitlinesGo s.data []

/-- Python `str.startswith(pre)` (on whole strings). -/
def strStarts (s pre : String) : Bool :=
  pre.data.isPrefixOf s.data

/-- Python `str.endswith(suf)` / byte-suffix comparison (suffix is ASCII in
every use, so the byte-level check in the source agrees with this
code-point-level check). -/
def strEnds (s suf : String) : Bool :=
  suf.data.isSuffixOf s.data

/-- Python `s.rstrip("\n")`: remove all trailing newline characters. -/
def pyRstripNl (s : String) : String :=
  String.mk (s.data.reverse.dropWhile (fun c => c == '\n')).reverse

/-- Python `s.lstrip(" ")` on a code-point list: remove all leading spaces
(only the space character, exactly as in the source). -/
def lstripSpaces (cs : List Char) : List Char :=
  cs.dropWhile (fun c => c == ' ')

/-- Worker for whitespace splitting, Python `str.split(None, maxsplit)`.
`ms = none` means no maxsplit.  The fuel argument strictly exceeds the
length of the input in every use, and at least one character is consumed
per recursive call, so the fuel-exhaustion branch is unreachable. -/
def splitWsGo : Nat → Option Nat → List Char → List (List Char)
  | 0, _, _ => []
  | fuel + 1, ms, cs =>
    match cs.dropWhile isPySpace with
    | [] => []
    | c :: rest =>
      match ms with
      | some 0 => [c :: rest]
      | _ =>
        let tok := (c :: rest).takeWhile (fun d => !(isPySpace d))
        let after := (c :: rest).dropWhile (fun d => !(isPySpace d))
        tok :: splitWsGo fuel (ms.map (· - 1)) after

/-- Python `str.split(None, maxsplit)` (whitespace split). -/
def pySplitWs (ms : Option Nat) (s : String) : List String :=
  (splitWsGo (s.data.length + 1) ms s.data).map String.mk

/-- Split at the first occurrence of `sep`, Python `s.split(sep, 1)`;
`none` when `sep` does not occur (Python would return the 1-element list
`[s]` there, which callers turn into their own errors). -/
def splitOnceGo (sep : List Char) : List Char → Option (List Char × List Char)
  | [] => none
  | c :: rest =>
    if sep.isPrefixOf (c :: rest) then some ([], (c :: rest).drop sep.length)
    else
      match splitOnceGo sep rest with
      | none => none
      | some (a, b) => some (c :: a, b)

/-- Python `s.replace(old, new)`: replace all non-overlapping occurrences,
left to right.  Fuel exceeds the input length in every use; `old` is
nonempty in every use. -/
def strReplaceGo : Nat → List Char → List Char → List Char → List Char
  | 0, _, _, _ => []
  | fuel + 1, cs, old, new =>
    match cs with
    | [] => []
    | c :: rest =>
      if old.isPrefixOf (c :: rest) then
        new ++ strReplaceGo fuel ((c :: rest).drop old.length) old new
      else
        c :: strReplaceGo fuel rest old new

/-- Python `s.replace(old, new)`. -/
def strReplace (s old new : String) : String :=
  String.mk (strReplaceGo (s.data.length + 1) s.data old.data new.data)

/-- Python code-point-wise string comparison `<` (lexicographic). -/
def charListLt : List Char → List Char → Bool
  | [], [] => false
  | [], _ :: _ => true
  | _ :: _, [] => false
  | a :: as, b :: bs => decide (a.val < b.val) || (a == b && charListLt as bs)

/-- Python code-point-wise string comparison `<=`. -/
def charListLe (a b : List Char) : Bool :=
  charListLt a b || a == b

/-- Stable insertion into a lexicographically sorted list of strings. -/
def insertSorted (x : String) : List String → List String
  | [] => [x]
  | y :: ys => if charListLe x.data y.data then x :: y :: ys else y :: insertSorted x ys

/-- Python `sorted` on strings (keys of a dict are distinct, so stability
is irrelevant here). -/
def pySorted : List String → List String
  | [] => []
  | x :: xs => insertSorted x (pySorted xs)

/-- Decimal digit list to value, with Python's underscore grouping rule:
underscores are allowed only between two digits. -/
def stripUnderscores : List Char → Option (List Char)
  | [] => some []
  | [c] => if c.isDigit then some [c] else none
  | c :: '_' :: rest =>
    if c.isDigit then
      match rest with
      | [] => none
      | d :: _ =>
        if d.isDigit then (stripUnderscores rest).map (fun l => c :: l) else none
    else none
  | c :: rest =>
    if c.isDigit then (stripUnderscores rest).map (fun l => c :: l) else none

/-- Value of a nonempty list of decimal digits. -/
def digitsToNat (cs : List Char) : Nat :=
  cs.foldl (fun acc c => acc * 10 + (c.toNat - '0'.toNat)) 0

/-- Python `int(s)` for base-10 string literals: optional surrounding
whitespace, optional sign, nonempty digit sequence with optional underscore
grouping.  `none` models the `ValueError`. -/
def pyParseInt (s : String) : Option Int :=
  let cs := (s.data.dropWhile isPySpace).reverse.dropWhile isPySpace |>.reverse
  let (neg, digits) :=
    match cs with
    | '-' :: rest => (true, rest)
    | '+' :: rest => (false, rest)
    | rest => (false, rest)
  match digits with
  | [] => none
  | _ =>
    match stripUnderscores digits with
    | none => none
    | some ds => some (if neg then -(digitsToNat ds : Int) else (digitsToNat ds : Int))

/-- Left-justify in a field of `w` characters (Python format spec `<w`);
never truncates. -/
def leftJustify (s : String) (w : Nat) : String :=
  s ++ String.mk (List.replicate (w - s.data.length) ' ')

/-- Right-justify in a field of `w` characters (Python format spec `>w`);
never truncates. -/
def rightJustify (s : String) (w : Nat) : String :=
  String.mk (List.replicate (w - s.data.length) ' ') ++ s

-- ## Row values

/-- A Python scalar-or-list value as stored in the mock's table rows.
The source stores ints, strings and lists (of strings or of string lists);
floats appear only in the built-in default `status` table, which is not
modeled (tests replace tables via `add_table`). -/
inductive Value where
  | int (i : Int)
  | str (s : String)
  | list (l : List Value)

/-- A table row: a Python dict from column name to value, modeled as an
insertion-ordered association list with distinct keys. -/
abbrev Row := List (String × Value)

/-- A compiled filter predicate over a row; `Except` carries the message of
the `KeyError` / `TypeError` / `ValueError` the Python predicate can raise. -/
abbrev FilterFunc := Row → Except String Bool

mutual

/-- Python `==` between row values: structural; `False` across different
types (no floats in the model, so no numeric cross-type equality). -/
def pyEq : Value → Value → Bool
  | .int a, .int b => a == b
  | .str a, .str b => a == b
  | .list a, .list b => pyEqList a b
  | _, _ => false

/-- Python `==` between lists: pointwise, equal lengths. -/
def pyEqList : List Value → List Value → Bool
  | [], [] => true
  | x :: xs, y :: ys => pyEq x y && pyEqList xs ys
  | _, _ => false

end

mutual

/-- Python `<` between row values; `.error` models the `TypeError` raised
between incompatible types. -/
def pyLtB : Value → Value → Except String Bool
  | .int a, .int b => .ok (decide (a < b))
  | .str a, .str b => .ok (charListLt a.data b.data)
  | .list a, .list b => pyListLt a b
  | _, _ => .error "TypeError: comparison not supported between these types"

/-- Python `<` between lists: first non-equal pair decides via `<`; a
proper prefix is smaller. -/
def pyListLt : List Value → List Value → Except String Bool
  | [], [] => .ok false
  | [], _ :: _ => .ok true
  | _ :: _, [] => .ok false
  | x :: xs, y :: ys => if pyEq x y then pyListLt xs ys else pyLtB x y

end

mutual

/-- Python `<=` between row values. -/
def pyLeB : Value → Value → Except String Bool
  | .int a, .int b => .ok (decide (a ≤ b))
  | .str a, .str b => .ok (charListLe a.data b.data)
  | .list a, .list b => pyListLe a b
  | _, _ => .error "TypeError: comparison not supported between these types"

/-- Python `<=` between lists. -/
def pyListLe : List Value → List Value → Except String Bool
  | [], _ => .ok true
  | _ :: _, [] => .ok false
  | x :: xs, y :: ys => if pyEq x y then pyListLe xs ys else pyLtB x y

end

/-- Python `>` (`operator.gt`): the mirror image of `<`. -/
def pyGtB (a b : Value) : Except String Bool :=
  pyLtB b a

/-- Python `>=` (`operator.ge`): the mirror image of `<=`. -/
def pyGeB (a b : Value) : Except String Bool :=
  pyLeB b a

/-- Python `operator.eq` as an `Except`-valued operator (never raises). -/
def pyEqB (a b : Value) : Except String Bool :=
  .ok (pyEq a b)

-- ## Python repr

/-- Hex digit for an index below 16. -/
def hexDigitChar (n : Nat) : Char :=
  if n < 10 then Char.ofNat ('0'.toNat + n) else Char.ofNat ('a'.toNat + (n - 10))

/-- Escaping of one character inside a Python string repr quoted with
`quote`.  Printable characters (modeled as everything at or above U+0020
except U+007F) are kept verbatim, matching Python 3 repr for the
character set that occurs in this code base. -/
def pyCharEscape (quote c : Char) : List Char :=
  if c = '\\' then ['\\', '\\']
  else if c = quote then ['\\', quote]
  else if c = '\n' then ['\\', 'n']
  else if c = '\r' then ['\\', 'r']
  else if c = '\t' then ['\\', 't']
  else if c.toNat < 32 || c.toNat = 127 then
    ['\\', 'x', hexDigitChar (c.toNat / 16), hexDigitChar (c.toNat % 16)]
  else [c]

/-- Python `repr` of a string: single quotes unless the string contains a
single quote and no double quote. -/
def pyReprStr (s : String) : String :=
  let q : Char := if s.data.contains '\'' && !(s.data.contains '"') then '"' else '\''
  String.mk (q :: (s.data.map (pyCharEscape q)).flatten ++ [q])

mutual

/-- Python `repr` of a row value. -/
def pyReprValue : Value → String
  | .int i => toString i
  | .str s => pyReprStr s
  | .list l => "[" ++ pyReprList l ++ "]"

/-- Comma-joined reprs of list elements (Python list repr body). -/
def pyReprList : List Value → String
  | [] => ""
  | [x] => pyReprValue x
  | x :: y :: rest => pyReprValue x ++ ", " ++ pyReprList (y :: rest)

end

/-- Python `repr` of a response (a list of rows, each a list of values). -/
def pyReprResponse (response : List (List Value)) : String :=
  pyReprValue (.list (response.map .list))

-- ## A regular expression engine for the patterns `_compare` builds

/-- Regular expressions over characters.  `anyc` is `.` (any character but
newline).  Greedy and lazy quantifiers coincide for the boolean "is there a
match" question, so the engine keeps no greediness information. -/
inductive Rx where
  | nul
  | eps
  | chr (c : Char)
  | anyc
  | alt (a b : Rx)
  | cat (a b : Rx)
  | star (a : Rx)

/-- Does the regular expression accept the empty string? -/
def Rx.nullable : Rx → Bool
  | .nul => false
  | .eps => true
  | .chr _ => false
  | .anyc => false
  | .alt a b => a.nullable || b.nullable
  | .cat a b => a.nullable && b.nullable
  | .star _ => true

/-- Brzozowski derivative with respect to one character. -/
def Rx.deriv : Rx → Char → Rx
  | .nul, _ => .nul
  | .eps, _ => .nul
  | .chr c, d => if c = d then .eps else .nul
  | .anyc, d => if d = '\n' then .nul else .eps
  | .alt a b, d => .alt (a.deriv d) (b.deriv d)
  | .cat a b, d => if a.nullable then .alt (.cat (a.deriv d) b) (b.deriv d) else .cat (a.deriv d) b
  | .star a, d => .cat (a.deriv d) (.star a)

/-- Whole-string match. -/
def rxMatch (r : Rx) (cs : List Char) : Bool :=
  (cs.foldl Rx.deriv r).nullable

/-- Match of some prefix of the string, Python `re.match` without anchors. -/
def rxMatchAtStart (r : Rx) : List Char → Bool
  | [] => r.nullable
  | c :: rest => r.nullable || rxMatchAtStart (r.deriv c) rest

/-- Python `bool(re.match("^" + p + "$", s))` for a pattern `p` without
internal anchors: the whole string matches, or the string ends in a newline
and everything before that final newline matches (`$` semantics). -/
def pyFullMatchDollar (r : Rx) (s : String) : Bool :=
  rxMatch r s.data ||
    (match s.data.getLast? with
     | some '\n' => rxMatch r s.data.dropLast
     | _ => false)

/-- Metacharacters that cannot start an atom. -/
def isQuantChar (c : Char) : Bool :=
  c = '*' || c = '+' || c = '?'

/-- After a quantifier: consume an optional lazy `?` marker, then reject a
stacked quantifier (Python `re.error: multiple repeat`). -/
def quantTail (r : Rx) : List Char → Option (Rx × List Char)
  | '?' :: rest =>
    match rest with
    | c :: _ => if isQuantChar c then none else some (r, rest)
    | [] => some (r, [])
  | c :: rest =>
    if isQuantChar c then none else some (r, c :: rest)
  | [] => some (r, [])

mutual

/-- Parse one atom: a group, `.`, an escaped character, or a literal.
Character classes (`[`), counted repeats (`{`), in-pattern anchors
(`^`, `$`), special groups (`(?`) and alphanumeric escape classes are
outside the modeled subset and make the parse fail, as do patterns that
are `re.error`s in Python (e.g. an unbalanced group). -/
def parseAtom : Nat → List Char → Option (Rx × List Char)
  | 0, _ => none
  | fuel + 1, cs =>
    match cs with
    | [] => none
    | '(' :: '?' :: _ => none
    | '(' :: rest =>
      match parseAlt fuel rest with
      | some (r, ')' :: rest2) => some (r, rest2)
      | _ => none
    | '.' :: rest => some (.anyc, rest)
    | '\\' :: c :: rest => if c.isAlphanum then none else some (.chr c, rest)
    | ['\\'] => none
    | c :: rest =>
      if c = '|' || c = ')' || c = '[' || c = '{' || c = '^' || c = '$' || isQuantChar c then
        none
      else some (.chr c, rest)

/-- Parse one atom with an optional quantifier (`*`, `+`, `?`, each with an
optional lazy `?` marker); a second quantifier is a `re.error` ("multiple
repeat") and fails. -/
def parseRep : Nat → List Char → Option (Rx × List Char)
  | 0, _ => none
  | fuel + 1, cs =>
    match parseAtom fuel cs with
    | none => none
    | some (r, rest) =>
      match rest with
      | '*' :: rest2 => quantTail (.star r) rest2
      | '+' :: rest2 => quantTail (.cat r (.star r)) rest2
      | '?' :: rest2 => quantTail (.alt r .eps) rest2
      | _ => some (r, rest)

/-- Parse a concatenation (a possibly empty sequence of repeated atoms,
up to `)` or `|` or the end of the pattern). -/
def parseCat : Nat → List Char → Option (Rx × List Char)
  | 0, _ => none
  | fuel + 1, cs =>
    match cs with
    | [] => some (.eps, [])
    | ')' :: _ => some (.eps, cs)
    | '|' :: _ => some (.eps, cs)
    | _ =>
      match parseRep fuel cs with
      | none => none
      | some (r, rest) =>
        match parseCat fuel rest with
        | none => none
        | some (r2, rest2) => some (.cat r r2, rest2)

/-- Parse an alternation of concatenations. -/
def parseAlt : Nat → List Char → Option (Rx × List Char)
  | 0, _ => none
  | fuel + 1, cs =>
    match parseCat fuel cs with
    | none => none
    | some (r, rest) =>
      match rest with
      | '|' :: rest2 =>
        match parseAlt fuel rest2 with
        | none => none
        | some (r2, rest3) => some (.alt r r2, rest3)
      | _ => some (r, rest)

end

/-- Parse a whole pattern (the part between the added `^` and `$`). -/
def parseRx (s : String) : Option Rx :=
  match parseAlt (4 * s.data.length + 8) s.data with
  | some (r, []) => some r
  | _ => none

-- ## Operator table and filter compiler (source lines 718-823)

/-- Source `cast_down`: cast the second argument (always the textual filter
literal) to the type of the first argument, then compare.  A failing cast
(`int(...)` on a non-numeric literal) models the `ValueError`. -/
def castValue : Value → String → Option Value
  | .int _, b => (pyParseInt b).map .int
  | .str _, b => some (.str b)
  | .list _, b => some (.list (b.data.map (fun c => .str (String.mk [c]))))

/-- Source `cast_down(op)` applied to a row value and the filter literal. -/
def cast_down (op : Value → Value → Except String Bool) : Value → String → Except String Bool :=
  fun a b =>
    match castValue a b with
    | none => .error "ValueError: invalid literal for int() with base 10"
    | some c => op a c

/-- Source `match_regexp`: `bool(re.match(regexp, string_))`.  The row
value must be a string (`re.match` raises a `TypeError` otherwise);
patterns outside the engine's modeled subset also report an error. -/
def match_regexp (a : Value) (regexp : String) : Except String Bool :=
  match a with
  | .str s =>
    match parseRx regexp with
    | some r => .ok (rxMatchAtStart r s.data)
    | none => .error "unsupported regex construct (modeling boundary)"
  | _ => .error "TypeError: expected string or bytes-like object"

/-- Source `OPERATORS` dict: note that `>=` maps to `operator.le` and `<=`
maps to `operator.ge`, exactly as in the source. -/
def OPERATORS : List (String × (Value → String → Except String Bool)) :=
  [("=", cast_down pyEqB),
   (">", cast_down pyGtB),
   ("<", cast_down pyLtB),
   (">=", cast_down pyLeB),
   ("<=", cast_down pyGeB),
   ("~", match_regexp)]

/-- Source `make_filter_func`: strip the 7-character `Filter:` prefix,
whitespace-split into at most three parts (`field`, `op`, rest-of-line as
the value), default the value to `""`, reject unknown operators, and build
the predicate `OPERATORS[op](entry[field], value)`. -/
def make_filter_func (line : String) : Except String FilterFunc :=
  match pySplitWs (some 2) (String.mk (line.data.drop 7)) with
  | [] => .error "ValueError: not enough values to unpack"
  | [_] => .error "ValueError: not enough values to unpack"
  | field :: op :: value =>
    match List.lookup op OPERATORS with
    | none =>
      .error ("Operator " ++ pyReprStr op ++ " not implemented. Please check docs or implement.")
    | some opf =>
      let v := match value with
        | [] => ""
        | v0 :: _ => v0
      .ok (fun entry =>
        match List.lookup field entry with
        | none => .error ("KeyError: " ++ pyReprStr field)
        | some a => opf a v)

/-- Evaluate every filter of a list on the same row, left to right, first
error wins (Python materializes the full list `[filt(entry) for filt in
filters]` before `all`/`any`). -/
def seqFilters : List FilterFunc → Row → Except String (List Bool)
  | [], _ => .ok []
  | f :: fs, entry =>
    match f entry with
    | .error e => .error e
    | .ok b =>
      match seqFilters fs entry with
      | .error e => .error e
      | .ok bs => .ok (b :: bs)

/-- Source `and_`: logical AND of all filters on the same row. -/
def and_ (filters : List FilterFunc) : FilterFunc :=
  fun entry =>
    match seqFilters filters entry with
    | .error e => .error e
    | .ok bs => .ok (bs.all id)

/-- Source `or_`: logical OR of all filters on the same row. -/
def or_ (filters : List FilterFunc) : FilterFunc :=
  fun entry =>
    match seqFilters filters entry with
    | .error e => .error e
    | .ok bs => .ok (bs.any id)

/-- Python list slice `l[:stop]` with possibly negative `stop` and the
usual clamping. -/
def pySliceStop {α : Type} (l : List α) (stop : Int) : List α :=
  let n : Int := l.length
  let s := if stop < 0 then stop + n else stop
  l.take (if s < 0 then 0 else s.toNat)

/-- Python list slice `l[start:]` with possibly negative `start` and the
usual clamping. -/
def pySliceStart {α : Type} (l : List α) (start : Int) : List α :=
  let n : Int := l.length
  let s := if start < 0 then start + n else start
  l.drop (if s < 0 then 0 else s.toNat)

-- ## Filter evaluator (source `evaluate_filter`, lines 599-658)

/-- Process the lines of a query into the working stack of compiled
predicates: `Filter:` lines push, `And:/Or: n` lines pop the last `n`
predicates (Python slices `filters[:-count]` / `filters[-count:]`) and
push the combination.  Errors: unsupported operator, unpackable `And:/Or:`
line, non-integer count, unknown combinator key. -/
def filterStack : List String → List FilterFunc → Except String (List FilterFunc)
  | [], filters => .ok filters
  | line :: rest, filters =>
    if strStarts line "Filter:" then
      match make_filter_func line with
      | .error e => .error e
      | .ok f => filterStack rest (filters ++ [f])
    else if strStarts line "And:" || strStarts line "Or:" then
      match splitOnceGo " ".data line.data with
      | none => .error "ValueError: not enough values to unpack"
      | some (opCs, countCs) =>
        match pyParseInt (String.mk countCs) with
        | none => .error "ValueError: invalid literal for int() with base 10"
        | some count =>
          let keep := pySliceStop filters (-count)
          let params := pySliceStart filters (-count)
          let op := String.mk opCs
          if op == "And:" then filterStack rest (keep ++ [and_ params])
          else if op == "Or:" then filterStack rest (keep ++ [or_ params])
          else .error ("KeyError: " ++ pyReprStr op)
    else filterStack rest filters

/-- Python list comprehension `[entry for entry in result if f(entry)]`:
keeps matching rows in order; a raising predicate aborts. -/
def filterRows (f : FilterFunc) : List Row → Except String (List Row)
  | [] => .ok []
  | r :: rest =>
    match f r with
    | .error e => .error e
    | .ok true =>
      match filterRows f rest with
      | .error e => .error e
      | .ok l => .ok (r :: l)
    | .ok false => filterRows f rest

/-- Source `evaluate_filter`: build the predicate stack from the query's
lines; zero predicates returns the rows unchanged, exactly one filters,
more than one raises `ValueError` ("Forgot And/Or?"). -/
def evaluate_filter (query : String) (result : List Row) : Except String (List Row) :=
  match filterStack (pySplitlines query) [] with
  | .error e => .error e
  | .ok [] => .ok result
  | .ok [f] => filterRows f result
  | .ok fs =>
    .error ("Got " ++ toString fs.length ++ " filters, expected one. Forgot And/Or?")

-- ## Query introspection (source lines 826-911)

/-- Source `_column_of_query`: whitespace-split remainder of the first
`Columns:` line, `none` when no such line exists. -/
def _column_of_query (query : String) : Option (List String) :=
  (pySplitlines query).findSome? (fun line =>
    if strStarts line "Columns:" then some (pySplitWs none (String.mk (line.data.drop 8)))
    else none)

/-- Source `_table_of_query`: second whitespace token of the first line
when it starts with `GET `; the `.error` models the `IndexError` Python
raises on a first line like `"GET "` with no second token. -/
def _table_of_query (query : String) : Except String (Option String) :=
  match pySplitlines query with
  | [] => .ok none
  | line0 :: _ =>
    if strStarts line0 "GET " then
      match pySplitWs (some 1) line0 with
      | _ :: tbl :: _ => .ok (some tbl)
      | _ => .error "IndexError: list index out of range"
    else .ok none

/-- Python dict assignment `d[k] = v` on an insertion-ordered association
list: update in place if the key exists, else append. -/
def insertReplace : List (String × String) → String → String → List (String × String)
  | [], k, v => [(k, v)]
  | (k0, v0) :: rest, k, v =>
    if k0 == k then (k0, v) :: rest else (k0, v0) :: insertReplace rest k v

/-- Worker for `_unpack_headers` over the query's lines. -/
def unpackGo : List String → List (String × String) → Option (List (String × String))
  | [], acc => some acc
  | header :: rest, acc =>
    if strStarts header "GET " then unpackGo rest acc
    else if !(header.data.contains ':') then unpackGo rest acc
    else if header.data.isEmpty then unpackGo rest acc
    else
      match splitOnceGo ": ".data header.data with
      | none => none
      | some (k, v) => unpackGo rest (insertReplace acc (String.mk k) (String.mk (lstripSpaces v)))

/-- Source `_unpack_headers`: skip `GET ` lines and lines without `:`;
split the others on the first `": "` and strip leading spaces from the
value.  `none` models the `ValueError` raised by the tuple unpacking
`key, value = header.split(": ", 1)` when a line contains `:` but no
`": "`. -/
def _unpack_headers (query : String) : Option (List (String × String)) :=
  unpackGo (pySplitlines query) []

-- ## Query comparison (source `_compare`, lines 462-529)

/-- The three match modes; the source's `LookupError` for an unknown mode
is unrepresentable with this enum. -/
inductive MatchType where
  | strict
  | ellipsis
  | loose
deriving DecidableEq

/-- The Python string naming each mode (used in error messages). -/
def MatchType.toStr : MatchType → String
  | .strict => "strict"
  | .ellipsis => "ellipsis"
  | .loose => "loose"

/-- Source `_compare`.  `loose`: every line of the pattern that does not
start with `"Cache: "` must occur verbatim among the lines of the string.
`strict`: equality.  `ellipsis`: escape `[`, turn `...` into `.*?`, and
match the whole string against `^pattern$` — `none` marks a pattern using
regex constructs outside the engine's modeled subset (including Python
`re.error` patterns). -/
def _compare (pattern string : String) (match_type : MatchType) : Option Bool :=
  match match_type with
  | .loose =>
    some ((pySplitlines pattern).all (fun line =>
      strStarts line "Cache: " || (pySplitlines string).contains line))
  | .strict => some (pattern == string)
  | .ellipsis =>
    match parseRx (strReplace (strReplace pattern "[" "\\[") "..." ".*?") with
    | some r => some (pyFullMatchDollar r string)
    | none => none

-- ## Wire framing (source `_make_livestatus_response`, lines 66-88)

/-- Source `_make_livestatus_response`: the frame is
`f"{code:<3} {length:>11}\n{data}"` with `code = 200`, `data` the Python
repr of the response and `length = len(data)` — the number of characters
of `data`, since Python `len` on `str` counts code points. -/
def _make_livestatus_response (response : List (List Value)) : String :=
  let data := pyReprResponse response
  let code : Nat := 200
  let length : Nat := data.data.length
  leftJustify (toString code) 3 ++ " " ++ rightJustify (toString length) 11 ++ "\n" ++ data

-- ## The mock connection (source class `MockLiveStatusConnection`)

/-- One entry of `_expected_queries`: the source stores the 4-tuple
`(query, columns, result, match_type)`. -/
structure Expectation where
  query : String
  columns : List String
  response : List (List Value)
  match_type : MatchType

/-- The mutable state of a `MockLiveStatusConnection`.
`last_response` models the `io.StringIO` buffer as its content string plus
the current read position.  `_num_queries` / `_query_index` of the source
are written but never read and are omitted.  The built-in default tables
(which contain the current date/time and floats) are not baked in: `tables`
starts from whatever a test installed via `add_table`, which replaces
tables wholesale exactly as in the source. -/
structure MockLiveStatusConnection where
  prepend_site : Bool
  expected_queries : List Expectation
  report_multiple : Bool
  expect_status_query : Option Bool
  tables : List (String × List Row)
  last_response : Option (String × Nat)

/-- Python `list.insert(pos, x)` for a nonnegative position (the source
only ever passes `force_pos=0`): insert before `pos`, clamped to the end. -/
def pyInsertAt {α : Type} : List α → Nat → α → List α
  | l, 0, x => x :: l
  | [], _ + 1, x => [x]
  | y :: ys, n + 1, x => y :: pyInsertAt ys n x

/-- Dict assignment for the table store (same semantics as
`insertReplace`, at the table type). -/
def insertReplaceT : List (String × List Row) → String → List Row → List (String × List Row)
  | [], k, v => [(k, v)]
  | (k0, v0) :: rest, k, v =>
    if k0 == k then (k0, v) :: rest else (k0, v0) :: insertReplaceT rest k v

/-- Source `add_table`: replace a table wholesale. -/
def MockLiveStatusConnection.add_table (self : MockLiveStatusConnection)
    (name : String) (data : List Row) : MockLiveStatusConnection :=
  { self with tables := (insertReplaceT self.tables name data) }

/-- The column list `expect_query` resolves for a query: the explicit
`Columns:` list if present and nonempty, otherwise — for a known table —
the loop `for entry in self._tables.get(table, []): columns =
sorted(entry.keys())`, which overwrites `columns` on every iteration and
therefore ends at the sorted key list of the last stored row. -/
def resolvedColumns (tables : List (String × List Row)) (tableOpt : Option String)
    (query : String) : List String :=
  let columns0 := (_column_of_query query).getD []
  match tableOpt with
  | some t =>
    if columns0.isEmpty then
      ((List.lookup t tables).getD []).foldl
        (fun _ entry => pySorted (entry.map Prod.fst)) columns0
    else columns0
  | none => columns0

/-- Worker for the result computation of `expect_query`: one output row,
the requested columns of one stored row, `KeyError` when a column is
missing from that row. -/
def buildRowResult (tbl : String) (columns : List String) (entry : Row) :
    Except String (List Value) :=
  match columns with
  | [] => .ok []
  | col :: rest =>
    match List.lookup col entry with
    | none =>
      .error ("KeyError: Column '" ++ tbl ++ "." ++ col ++ "' not known. Add to test-data or fix query.")
    | some v =>
      match buildRowResult tbl rest entry with
      | .error e => .error e
      | .ok vs => .ok (v :: vs)

/-- Worker for the result computation of `expect_query`: all output rows. -/
def buildResult (tbl : String) (columns : List String) :
    List Row → Except String (List (List Value))
  | [] => .ok []
  | entry :: rest =>
    match buildRowResult tbl columns entry with
    | .error e => .error e
    | .ok row =>
      match buildResult tbl columns rest with
      | .error e => .error e
      | .ok rows => .ok (row :: rows)

/-- Source `expect_query` (string-query form; the list form joins with
newlines first and is then identical).  The `ValueError` for an unknown
`match_type` string is unrepresentable because `MatchType` is an enum.
Steps, in source order: strip trailing newlines; extract the table name
(possibly raising); take the explicit `Columns:` list or else, per stored row of
the table, overwrite `columns` with that row's sorted key list; when a
table and columns are known, require the table to be stored, filter its
rows with `evaluate_filter`, and read each requested column of each
surviving row (`KeyError` when absent); finally insert the expectation at
`force_pos` or append it. -/
def MockLiveStatusConnection.expect_query (self : MockLiveStatusConnection)
    (query : String) (match_type : MatchType) (force_pos : Option Nat) :
    Except String MockLiveStatusConnection :=
  let query := pyRstripNl query
  match _table_of_query query with
  | .error e => .error e
  | .ok tableOpt =>
    let columns := resolvedColumns self.tables tableOpt query
    let insert := fun (result : List (List Value)) =>
      let e : Expectation := ⟨query, columns, result, match_type⟩
      match force_pos with
      | some pos => { self with expected_queries := pyInsertAt self.expected_queries pos e }
      | none => { self with expected_queries := self.expected_queries ++ [e] }
    match tableOpt with
    | none => .ok (insert [])
    | some t =>
      if columns.isEmpty then .ok (insert [])
      else
        match List.lookup t self.tables with
        | none => .error ("KeyError: Table " ++ pyReprStr t ++ " not stored. Call .add_table(...)")
        | some rows =>
          match evaluate_filter query rows with
          | .error e => .error e
          | .ok result_dicts =>
            match buildResult t columns result_dicts with
            | .error e => .error e
            | .ok result => .ok (insert result)

/-- Source closure `_generate_output` inside `_lookup_next_query`: yield
the column-name header row when the submitted query asked
`ColumnHeaders: on`, then the stored rows, each prefixed with the
`'NO_SITE'` marker when `prepend_site` is set. -/
def _generate_output (show_columns : String) (prepend_site : Bool)
    (columns : List String) (response : List (List Value)) : List (List Value) :=
  (if show_columns == "on" then [columns.map Value.str] else []) ++
    (if prepend_site then response.map (fun line => Value.str "NO_SITE" :: line) else response)

/-- Source `_lookup_next_query`.  The returned connection is the state
after the call (unchanged whenever an error is reported, since the source
only mutates state after the comparison has succeeded). -/
def MockLiveStatusConnection._lookup_next_query (self : MockLiveStatusConnection)
    (query : String) : MockLiveStatusConnection × Except String (List (List Value)) :=
  match self.expect_status_query with
  | none =>
    (self, .error "RuntimeError: Please use MockLiveStatusConnection as a context manager.")
  | some _ =>
    match _unpack_headers query with
    | none => (self, .error "ValueError: not enough values to unpack (expected 2, got 1)")
    | some header_dict =>
      let show_columns := (List.lookup "ColumnHeaders" header_dict).getD "off"
      match self.expected_queries with
      | [] => (self, .error ("RuntimeError: Got unexpected query:\n * " ++ pyReprStr query))
      | e :: rest =>
        match _compare e.query query e.match_type with
        | none => (self, .error "unsupported regex construct in ellipsis pattern (modeling boundary)")
        | some false =>
          (self, .error ("RuntimeError: Expected query (" ++ e.match_type.toStr ++ "):\n * " ++
            pyReprStr e.query ++ "\nGot query:\n * " ++ pyReprStr query))
        | some true =>
          let output := _generate_output show_columns self.prepend_site e.columns e.response
          ({ self with
              expected_queries := rest,
              last_response := some (_make_livestatus_response output, 0) },
           .ok output)

/-- Source `socket_send`: strip one trailing `"\n\n"` frame terminator and
look up the query.  (The source works on bytes and decodes UTF-8; since
`"\n"` is ASCII, the byte-suffix test agrees with the string-suffix test.) -/
def MockLiveStatusConnection.socket_send (self : MockLiveStatusConnection)
    (data : String) : MockLiveStatusConnection × Except String Unit :=
  let data := if strEnds data "\n\n" then String.mk data.data.dropLast.dropLast else data
  match self._lookup_next_query data with
  | (conn, .error e) => (conn, .error e)
  | (conn, .ok _) => (conn, .ok ())

/-- Source `socket_recv`: read up to `length` characters from the buffered
response, advancing the read position (the source then UTF-8-encodes the
chunk for the byte-level socket interface). -/
def MockLiveStatusConnection.socket_recv (self : MockLiveStatusConnection)
    (length : Nat) : MockLiveStatusConnection × Except String String :=
  match self.last_response with
  | none => (self, .error "RuntimeError: Nothing sent yet. Can't receive!")
  | some (content, pos) =>
    let chunk := (content.data.drop pos).take length
    ({ self with last_response := some (content, pos + chunk.length) }, .ok (String.mk chunk))

/-- Source `set_prepend_site`. -/
def MockLiveStatusConnection.set_prepend_site (self : MockLiveStatusConnection)
    (prepend : Bool) : MockLiveStatusConnection :=
  { self with prepend_site := prepend }

-- ## Test-session driver (models the caller's declare/send/receive loop)

/-- Declare a list of expectations in order with `expect_query`
(no `force_pos`), stopping at the first declaration error. -/
def declareAll (conn : MockLiveStatusConnection) :
    List (String × MatchType) → Except String MockLiveStatusConnection
  | [] => .ok conn
  | (q, m) :: rest =>
    match conn.expect_query q m none with
    | .error e => .error e
    | .ok c => declareAll c rest

/-- Read the whole remaining buffered response (a caller loop of
`socket_recv` until exhaustion always yields exactly this). -/
def recvAll (conn : MockLiveStatusConnection) :
    MockLiveStatusConnection × Except String String :=
  match conn.last_response with
  | none => conn.socket_recv 0
  | some (content, _) => conn.socket_recv content.data.length

/-- Submit queries in order through `socket_send`, reading the full framed
response after each send; stops at the first raised error. -/
def runQueries (conn : MockLiveStatusConnection) :
    List String → Except String (List String)
  | [] => .ok []
  | q :: qs =>
    match conn.socket_send q with
    | (_, .error e) => .error e
    | (conn1, .ok _) =>
      match recvAll conn1 with
      | (_, .error e) => .error e
      | (conn2, .ok frame) =>
        match runQueries conn2 qs with
        | .error e => .error e
        | .ok frames => .ok (frame :: frames)

/-- The `ColumnHeaders` value the submitted query carries (the
`header_dict.pop('ColumnHeaders', 'off')` of `_lookup_next_query`). -/
def showColumnsOf (query : String) : String :=
  match _unpack_headers query with
  | some hs => (List.lookup "ColumnHeaders" hs).getD "off"
  | none => "off"

/-- The frame `_lookup_next_query` buffers for an expectation entry when
the submitted query is the declared text itself. -/
def frameOfEntry (prepend : Bool) (e : Expectation) : String :=
  _make_livestatus_response (_generate_output (showColumnsOf e.query) prepend e.columns e.response)

-- ## Definitions used only by the verification statements

/-- A filter line as `expect_query`'s callers write it:
`"Filter: " ++ column ++ " " ++ op ++ " " ++ value`. -/
def mkFilterLine (col op v : String) : String :=
  String.mk ("Filter: ".data ++ (col.data ++ (' ' :: (op.data ++ (' ' :: v.data)))))

/-- A query is colon-well-formed when every line that `_unpack_headers`
tries to split (not a `GET ` line, contains `:`) also contains `": "`, so
the tuple unpacking in the source cannot raise. -/
def colonWF (q : String) : Prop :=
  ∀ line ∈ pySplitlines q, strStarts line "GET " = false →
    line.data.contains ':' = true → (splitOnceGo ": ".data line.data).isSome = true

instance (q : String) : Decidable (colonWF q) := by
  unfold colonWF
  infer_instance

/-- Modelled from the spec's words, for comparison with the code: "the
union of the column names present across all of that table's currently
stored rows, sorted lexicographically". -/
def unionColumnsSpec (rows : List Row) : List String :=
  pySorted (rows.foldl
    (fun acc r => acc ++ (r.map Prod.fst).filter (fun k => !(acc.contains k))) [])

/-- Modelled from the spec's words, for comparison with the code: trim
exactly one leading space from a header value. -/
def trimOneSpaceSpec (cs : List Char) : List Char :=
  match cs with
  | ' ' :: rest => rest
  | _ => cs

-- Concrete fixtures used by the witnesses and counterexamples below.
-- They model a connection constructed, configured with
-- `(expect_status_query=False)` and entered, whose tables have been
-- replaced through `add_table`.

/-- A bare entered connection with no expectations. -/
def emptyConn : MockLiveStatusConnection :=
  { prepend_site := false, expected_queries := [], report_multiple := false,
    expect_status_query := some false, tables := [], last_response := none }

/-- The `hosts` rows of the source's built-in test data. -/
def hostsRows : List Row :=
  [[("name", .str "heute"), ("parents", .list [.str "example.com"])],
   [("name", .str "example.com"), ("parents", .list [])]]

/-- The `services` rows of the source's built-in test data. -/
def servicesRows : List Row :=
  [[("host_name", .str "example.com"), ("description", .str "Memory")],
   [("host_name", .str "example.com"), ("description", .str "CPU load")],
   [("host_name", .str "heute"), ("description", .str "CPU load")]]

/-- An entered connection carrying the `hosts` and `services` test data. -/
def liveConn : MockLiveStatusConnection :=
  (emptyConn.add_table "hosts" hostsRows).add_table "services" servicesRows

/-- The declarations of the source's first docstring example. -/
def liveDecls : List (String × MatchType) :=
  [("GET hosts\nColumns: name", .loose),
   ("GET services\nColumns: description\nColumnHeaders: on", .loose)]

/-- A table whose two rows have different key sets (first `{a, b}`, last
`{b}`), separating "union of all rows' columns" from "last row's columns". -/
def c3Rows : List Row :=
  [[("a", .int 1), ("b", .int 2)], [("b", .int 3)]]

/-- Connection used by the C3 counterexample. -/
def c3Conn : MockLiveStatusConnection :=
  emptyConn.add_table "t" c3Rows

/-- A table whose first row lacks column `b` while the second has it;
a filter on `a` can remove the first row. -/
def c8Rows : List Row :=
  [[("a", .str "x")], [("a", .str "y"), ("b", .str "z")]]

/-- Connection used by the C8 counterexample. -/
def c8Conn : MockLiveStatusConnection :=
  emptyConn.add_table "t" c8Rows

/-- An entered connection holding one strict expectation (as produced by
`expect_query "GET hosts\nColumns: name" strict` on `liveConn`). -/
def c2Conn : MockLiveStatusConnection :=
  { liveConn with
      expected_queries :=
        [⟨"GET hosts\nColumns: name", ["name"],
          [[Value.str "heute"], [Value.str "example.com"]], .strict⟩] }

-- ## Helper lemmas

/-- A character below 128 occupies one UTF-8 byte. -/
theorem utf8SizeOneOfAscii (c : Char) (h : c.toNat < 128) : c.utf8Size = 1 := by
  have hv : c.val ≤ UInt32.ofNatCore 127 Char.utf8Size.proof_1 := by
    change c.val.toNat < 128 at h
    change c.val.toNat ≤ _
    simp [UInt32.ofNatCore]
    omega
  rw [Char.utf8Size]
  exact if_pos hv

/-- For a list of ASCII characters, the UTF-8 byte count equals the length. -/
theorem utf8ByteSizeGoAscii (cs : List Char) (h : ∀ c ∈ cs, c.toNat < 128) :
    String.utf8ByteSize.go cs = cs.length := by
  induction cs with
  | nil => rfl
  | cons c rest ih =>
    show String.utf8ByteSize.go rest + c.utf8Size = rest.length + 1
    rw [utf8SizeOneOfAscii c (h c (by simp)), ih (fun d hd => h d (by simp [hd]))]

/-- For a string of ASCII characters, the UTF-8 byte length equals the
number of characters. -/
theorem utf8ByteSizeAscii (s : String) (h : ∀ c ∈ s.data, c.toNat < 128) :
    s.utf8ByteSize = s.data.length :=
  utf8ByteSizeGoAscii s.data h

-- ## C5

/-- C5: the claim as stated is false: the length field of the wire frame
holds `len(data)` where `data` is the repr string, i.e. the number of
characters, not the number of UTF-8 bytes.  The body `[['ä']]` has 7
characters but 8 bytes, and the produced frame carries `7`, not `8`. -/
theorem c5_counterexample :
    pyReprResponse [[Value.str "ä"]] = "[['ä']]" ∧
    _make_livestatus_response [[Value.str "ä"]] =
      leftJustify "200" 3 ++ " " ++ rightJustify (toString 7) 11 ++ "\n" ++ "[['ä']]" ∧
    ("[['ä']]" : String).utf8ByteSize = 8 ∧
    _make_livestatus_response [[Value.str "ä"]] ≠
      leftJustify "200" 3 ++ " " ++
        rightJustify (toString (("[['ä']]" : String).utf8ByteSize)) 11 ++ "\n" ++ "[['ä']]" := by
  refine ⟨rfl, rfl, rfl, ?_⟩
  decide

/-- C5 (amended): the frame is exactly the 3-character left-justified
status `200`, one space, the 11-character right-justified CHARACTER count
of the serialized body, a newline, and the body; for ASCII-only bodies
(every byte below 128) that count coincides with the byte length, which is
the only situation the original byte-length claim covers correctly. -/
theorem c5_frame_char_length (response : List (List Value)) :
    _make_livestatus_response response =
      leftJustify "200" 3 ++ " " ++
        rightJustify (toString (pyReprResponse response).data.length) 11 ++ "\n" ++
        pyReprResponse response ∧
    ((∀ c ∈ (pyReprResponse response).data, c.toNat < 128) →
      (pyReprResponse response).utf8ByteSize = (pyReprResponse response).data.length) := by
  refine ⟨rfl, fun h => utf8ByteSizeAscii _ h⟩

/-- C5 witness: the amended theorem applied to the source's own doctest
response, whose body is ASCII. -/
theorem c5_frame_char_length_witness :
    _make_livestatus_response [[Value.str "foo"], [Value.int 1]] =
      leftJustify "200" 3 ++ " " ++
        rightJustify (toString (pyReprResponse [[Value.str "foo"], [Value.int 1]]).data.length) 11 ++
        "\n" ++ pyReprResponse [[Value.str "foo"], [Value.int 1]] ∧
    (pyReprResponse [[Value.str "foo"], [Value.int 1]]).utf8ByteSize =
      (pyReprResponse [[Value.str "foo"], [Value.int 1]]).data.length := by
  have h := c5_frame_char_length [[Value.str "foo"], [Value.int 1]]
  exact ⟨h.1, h.2 (by decide)⟩

-- ## C6

/-- C6: loose comparison succeeds exactly when every line of the expected
query that is not a `Cache: ` line occurs verbatim among the lines of the
actual query; extra lines of the actual query and their order are
irrelevant because the condition constrains only the expected query's
lines. -/
theorem c6_loose_superset (pattern string : String) :
    _compare pattern string .loose = some true ↔
      ∀ line ∈ pySplitlines pattern, strStarts line "Cache: " = false →
        line ∈ pySplitlines string := by
  show some _ = some true ↔ _
  rw [Option.some_inj]
  rw [List.all_eq_true]
  constructor
  · intro h line hmem hcache
    have := h line hmem
    rw [hcache] at this
    simpa using this
  · intro h line hmem
    cases hc : strStarts line "Cache: " with
    | true => simp
    | false => simpa using h line hmem hc

/-- C6 witness: the source's loose-mode doctest, decided through the
characterization. -/
theorem c6_loose_superset_witness :
    _compare "GET hosts\nColumns: name"
      "GET hosts\nCache: reload\nColumns: name\nLocaltime: 12345" .loose = some true ∧
    ¬(_compare "GET hosts\nColumns: name"
      "GET hosts\nCache: reload\nColumns: alias name\nLocaltime: 12345" .loose = some true) := by
  constructor
  · exact (c6_loose_superset "GET hosts\nColumns: name"
      "GET hosts\nCache: reload\nColumns: name\nLocaltime: 12345").mpr (by decide)
  · intro hcon
    have h := (c6_loose_superset "GET hosts\nColumns: name"
      "GET hosts\nCache: reload\nColumns: alias name\nLocaltime: 12345").mp hcon
    have := h "Columns: name" (by decide) (by decide)
    revert this
    decide

-- ## C9

/-- C9: the claim as stated is false: the source strips ALL leading spaces
from a header value (`value.lstrip(" ")`), not exactly one.  For the line
`"Key:   x"` the value after splitting at the first `": "` is `"  x"`;
trimming exactly one space would keep `" x"`, but the code produces `"x"`. -/
theorem c9_counterexample :
    _unpack_headers "Key:   x" = some [("Key", "x")] ∧
    String.mk (trimOneSpaceSpec "  x".data) = " x" ∧
    ("x" : String) ≠ " x" := by
  refine ⟨rfl, rfl, ?_⟩
  decide

/-- Worker equivalence: `unpackGo` is the fold of the split-and-strip step
over exactly the lines that are not `GET ` lines and contain `:`. -/
theorem unpackGo_filter (lines : List String) (acc : List (String × String))
    (h : ∀ line ∈ lines, strStarts line "GET " = false →
          line.data.contains ':' = true → (splitOnceGo ": ".data line.data).isSome = true) :
    unpackGo lines acc =
      some (((lines.filter
              (fun line => !(strStarts line "GET ") && line.data.contains ':'))).foldl
            (fun acc line =>
              match splitOnceGo ": ".data line.data with
              | some kv => insertReplace acc (String.mk kv.1) (String.mk (lstripSpaces kv.2))
              | none => acc) acc) := by
  induction lines generalizing acc with
  | nil => rfl
  | cons line rest ih =>
    have hrest : ∀ l ∈ rest, strStarts l "GET " = false →
        l.data.contains ':' = true → (splitOnceGo ": ".data l.data).isSome = true :=
      fun l hl => h l (by simp [hl])
    rw [List.filter_cons, unpackGo]
    by_cases hg : strStarts line "GET "
    · rw [if_pos hg, if_neg (by rw [hg]; simp), ih acc hrest]
    · rw [Bool.not_eq_true] at hg
      rw [if_neg (by rw [hg]; simp)]
      by_cases hc : line.data.contains ':'
      · have hne : line.data.isEmpty = false := by
          cases hd : line.data with
          | nil => rw [hd] at hc; simp [List.contains] at hc
          | cons a l => simp [List.isEmpty]
        obtain ⟨kv, hkv⟩ := Option.isSome_iff_exists.mp (h line (by simp) hg hc)
        rw [if_neg (by rw [hc]; simp), if_neg (by rw [hne]; simp), hkv,
          if_pos (by rw [hg, hc]; rfl), List.foldl_cons, hkv]
        exact ih _ hrest
      · rw [Bool.not_eq_true] at hc
        rw [if_pos (by rw [hc]; rfl), if_neg (by rw [hg, hc]; simp), ih acc hrest]

/-- C9 (amended): header unpacking maps every line that does not start
with `GET ` and contains `:` to a key/value pair by splitting on the first
`": "` and trimming ALL leading spaces from the value (so a value written
with extra spaces after the colon loses all of them); lines without `:`
and empty lines are ignored; later duplicate keys overwrite earlier ones
in place; the function is pure. -/
theorem c9_header_unpacking (q : String)
    (h : ∀ line ∈ pySplitlines q, strStarts line "GET " = false →
          line.data.contains ':' = true → (splitOnceGo ": ".data line.data).isSome = true) :
    _unpack_headers q =
      some (((pySplitlines q).filter
              (fun line => !(strStarts line "GET ") && line.data.contains ':')).foldl
            (fun acc line =>
              match splitOnceGo ": ".data line.data with
              | some kv => insertReplace acc (String.mk kv.1) (String.mk (lstripSpaces kv.2))
              | none => acc) []) :=
  unpackGo_filter (pySplitlines q) [] h

/-- C9 witness: the amended theorem applied to the source's doctest query. -/
theorem c9_header_unpacking_witness :
    _unpack_headers "GET hosts\nColumnHeaders: off" =
      some ((((pySplitlines "GET hosts\nColumnHeaders: off").filter
              (fun line => !(strStarts line "GET ") && line.data.contains ':'))).foldl
            (fun acc line =>
              match splitOnceGo ": ".data line.data with
              | some kv => insertReplace acc (String.mk kv.1) (String.mk (lstripSpaces kv.2))
              | none => acc) []) :=
  c9_header_unpacking "GET hosts\nColumnHeaders: off" (by decide)

-- ## C10

/-- C10: header unpacking is not total: the query
`"GET hosts\nColumnHeaders:on"` has a line containing `:` but no `": "`,
so `_unpack_headers` reports the unpacking `ValueError`, and sending that
query raises it — before the expectation queue is even consulted — on any
entered connection. -/
theorem c10_unpack_not_total (conn : MockLiveStatusConnection) (b : Bool)
    (hctx : conn.expect_status_query = some b) :
    _unpack_headers "GET hosts\nColumnHeaders:on" = none ∧
    conn.socket_send "GET hosts\nColumnHeaders:on" =
      (conn, .error "ValueError: not enough values to unpack (expected 2, got 1)") := by
  refine ⟨rfl, ?_⟩
  rw [MockLiveStatusConnection.socket_send]
  rw [show strEnds "GET hosts\nColumnHeaders:on" "\n\n" = false from rfl]
  simp only [if_false, Bool.false_eq_true]
  rw [MockLiveStatusConnection._lookup_next_query, hctx]
  rfl

/-- C10 witness: the theorem applied to a concrete entered connection. -/
theorem c10_unpack_not_total_witness :
    _unpack_headers "GET hosts\nColumnHeaders:on" = none ∧
    liveConn.socket_send "GET hosts\nColumnHeaders:on" =
      (liveConn, .error "ValueError: not enough values to unpack (expected 2, got 1)") :=
  c10_unpack_not_total liveConn false rfl

-- ## C2

/-- C2: `_lookup_next_query` (once past the header unpacking, which this
claim's hypotheses supply) consults only the entry at position 0 of the
expectation queue: an empty queue raises "unexpected query" leaving the
state unchanged; a mismatch against the head raises "Expected query"
leaving the state unchanged; a match removes exactly the head entry and
answers with that entry's precomputed response. -/
theorem c2_fifo_head_discipline (conn : MockLiveStatusConnection) (q : String)
    (hs : List (String × String)) (b0 : Bool)
    (hctx : conn.expect_status_query = some b0)
    (hun : _unpack_headers q = some hs) :
    (conn.expected_queries = [] →
      conn._lookup_next_query q =
        (conn, .error ("RuntimeError: Got unexpected query:\n * " ++ pyReprStr q))) ∧
    (∀ e rest b, conn.expected_queries = e :: rest →
      _compare e.query q e.match_type = some b →
      ((b = false →
        conn._lookup_next_query q =
          (conn, .error ("RuntimeError: Expected query (" ++ e.match_type.toStr ++ "):\n * " ++
            pyReprStr e.query ++ "\nGot query:\n * " ++ pyReprStr q))) ∧
       (b = true →
        (conn._lookup_next_query q).1.expected_queries = rest ∧
        (conn._lookup_next_query q).1.tables = conn.tables ∧
        (conn._lookup_next_query q).2 =
          .ok (_generate_output ((List.lookup "ColumnHeaders" hs).getD "off")
            conn.prepend_site e.columns e.response)))) := by
  constructor
  · intro hq
    rw [MockLiveStatusConnection._lookup_next_query, hctx, hun, hq]
  · intro e rest b hq hcmp
    constructor
    · intro hb
      subst hb
      rw [MockLiveStatusConnection._lookup_next_query, hctx, hun, hq]
      dsimp only
      rw [hcmp]
    · intro hb
      subst hb
      rw [MockLiveStatusConnection._lookup_next_query, hctx, hun, hq]
      dsimp only
      rw [hcmp]
      exact ⟨rfl, rfl, rfl⟩

/-- C2 witness: the theorem applied to a connection holding exactly one
strict expectation, submitted with the declared text. -/
theorem c2_fifo_head_discipline_witness :
    (c2Conn._lookup_next_query "GET hosts\nColumns: name").1.expected_queries = [] ∧
    (c2Conn._lookup_next_query "GET hosts\nColumns: name").2 =
      .ok [[Value.str "heute"], [Value.str "example.com"]] := by
  have h := (c2_fifo_head_discipline c2Conn "GET hosts\nColumns: name"
      [("Columns", "name")] false rfl rfl).2
      ⟨"GET hosts\nColumns: name", ["name"],
        [[Value.str "heute"], [Value.str "example.com"]], .strict⟩ [] true rfl rfl
  obtain ⟨h1, h2, h3⟩ := h.2 rfl
  exact ⟨h1, h3⟩

-- ## C3

/-- A `foldl` that ignores its accumulator ends at the image of the last
element (the shape of the column-inference loop in `expect_query`). -/
theorem foldl_overwrite {α β : Type} (f : α → β) (init : β) (l : List α) :
    l.foldl (fun _ x => f x) init = (l.getLast?.map f).getD init := by
  induction l generalizing init with
  | nil => rfl
  | cons a l ih =>
    rw [List.foldl_cons]
    cases l with
    | nil => rfl
    | cons b t =>
      obtain ⟨x, hx⟩ := Option.isSome_iff_exists.mp
        (List.getLast?_isSome.mpr (by simp) : ((b :: t).getLast?).isSome)
      rw [ih (f a), List.getLast?_cons_cons, hx]
      rfl

/-- C3: the claim as stated is false: on a table whose rows have key sets
`{a, b}` and then `{b}`, the resolved column list for `GET t` (no
`Columns:` line) is `["b"]` — the sorted keys of the LAST row — not the
sorted union `["a", "b"]` the claim demands. -/
theorem c3_counterexample :
    ((c3Conn.expect_query "GET t" .loose none).toOption.map
        (fun c => c.expected_queries.map Expectation.columns)) = some [["b"]] ∧
    unionColumnsSpec c3Rows = ["a", "b"] ∧
    (["b"] : List String) ≠ ["a", "b"] := by
  refine ⟨rfl, rfl, ?_⟩
  decide

/-- C3 (amended): for a declaration whose query names a table and carries
no explicit `Columns:` line, the resolved column list is the
lexicographically sorted key list of the LAST row currently stored for
that table (the inference loop overwrites its result on every row), and
the empty list when the table is absent or empty. -/
theorem c3_last_row_columns (conn : MockLiveStatusConnection) (q tbl : String)
    (mt : MatchType) (conn' : MockLiveStatusConnection)
    (hq : pyRstripNl q = q)
    (ht : _table_of_query q = .ok (some tbl))
    (hc : _column_of_query q = none)
    (hok : conn.expect_query q mt none = .ok conn') :
    ∃ e, conn'.expected_queries = conn.expected_queries ++ [e] ∧
      e.columns =
        ((((List.lookup tbl conn.tables).getD []).getLast?).map
          (fun row => pySorted (row.map Prod.fst))).getD [] := by
  have hcols : resolvedColumns conn.tables (some tbl) q =
      ((((List.lookup tbl conn.tables).getD []).getLast?).map
        (fun row => pySorted (row.map Prod.fst))).getD [] := by
    rw [resolvedColumns, hc]
    simp only [Option.getD_none, List.isEmpty_nil, if_true]
    exact foldl_overwrite (fun (entry : Row) => pySorted (entry.map Prod.fst)) [] _
  rw [MockLiveStatusConnection.expect_query, hq, ht] at hok
  dsimp only at hok
  rw [hcols] at hok
  split at hok
  · cases hok
    exact ⟨_, rfl, rfl⟩
  · split at hok
    · cases hok
    · split at hok
      · cases hok
      · split at hok
        · cases hok
        · cases hok
          exact ⟨_, rfl, rfl⟩

/-- C3 witness: the amended theorem applied to the counterexample table,
where the last row's keys are `{b}`. -/
theorem c3_last_row_columns_witness :
    ∃ e conn', c3Conn.expect_query "GET t" .loose none = .ok conn' ∧
      conn'.expected_queries = c3Conn.expected_queries ++ [e] ∧
      e.columns =
        ((((List.lookup "t" c3Conn.tables).getD []).getLast?).map
          (fun row => pySorted (row.map Prod.fst))).getD [] := by
  obtain ⟨conn', hconn⟩ : ∃ c, c3Conn.expect_query "GET t" .loose none = .ok c := ⟨_, rfl⟩
  obtain ⟨e, h1, h2⟩ := c3_last_row_columns c3Conn "GET t" "t" .loose conn' rfl rfl rfl hconn
  exact ⟨e, conn', hconn, h1, h2⟩

-- ## C7

/-- The list-comprehension filter keeps exactly the rows on which the
predicate answers `ok true`, in their original relative order. -/
theorem filterRows_ok (f : FilterFunc) (rows out : List Row)
    (h : filterRows f rows = .ok out) :
    out = rows.filter (fun r =>
      match f r with
      | .ok true => true
      | _ => false) := by
  induction rows generalizing out with
  | nil =>
    cases h
    rfl
  | cons r rest ih =>
    rw [filterRows] at h
    rw [List.filter_cons]
    cases hf : f r with
    | error e =>
      rw [hf] at h
      cases h
    | ok b =>
      rw [hf] at h
      cases b
      · dsimp only at h ⊢
        rw [if_neg Bool.false_ne_true]
        exact ih out h
      · dsimp only at h ⊢
        cases hrec : filterRows f rest with
        | error e =>
          rw [hrec] at h
          cases h
        | ok l =>
          rw [hrec] at h
          dsimp only at h
          cases h
          rw [if_pos rfl, ih l hrec]

/-- C7: once the `Filter:`/`And:`/`Or:` lines of a query have produced the
working stack, `evaluate_filter` returns the rows unchanged for an empty
stack, filters (preserving order) for a singleton stack, and raises the
"Forgot And/Or?" `ValueError` for two or more remaining predicates. -/
theorem c7_stack_discipline (q : String) (rows : List Row) (fs : List FilterFunc)
    (h : filterStack (pySplitlines q) [] = .ok fs) :
    (fs = [] → evaluate_filter q rows = .ok rows) ∧
    (∀ f, fs = [f] → ∀ out, evaluate_filter q rows = .ok out →
        out = rows.filter (fun r =>
          match f r with
          | .ok true => true
          | _ => false)) ∧
    (2 ≤ fs.length →
      evaluate_filter q rows =
        .error ("Got " ++ toString fs.length ++ " filters, expected one. Forgot And/Or?")) := by
  refine ⟨?_, ?_, ?_⟩
  · intro hfs
    subst hfs
    rw [evaluate_filter, h]
  · intro f hfs out hout
    subst hfs
    rw [evaluate_filter, h] at hout
    exact filterRows_ok f rows out hout
  · intro hlen
    rw [evaluate_filter, h]
    rcases fs with _ | ⟨f1, _ | ⟨f2, rest⟩⟩
    · simp at hlen
    · simp at hlen
    · rfl

/-- C7 witness: two uncombined filters raise; a filterless query returns
the rows unchanged. -/
theorem c7_stack_discipline_witness :
    evaluate_filter "Filter: name = heute\nFilter: name = morgen" hostsRows =
      .error ("Got " ++ toString 2 ++ " filters, expected one. Forgot And/Or?") ∧
    evaluate_filter "GET hosts" hostsRows = .ok hostsRows := by
  constructor
  · obtain ⟨f1, f2, hfs⟩ : ∃ f1 f2,
        filterStack (pySplitlines "Filter: name = heute\nFilter: name = morgen") [] =
          .ok [f1, f2] := ⟨_, _, rfl⟩
    have h := (c7_stack_discipline "Filter: name = heute\nFilter: name = morgen"
        hostsRows [f1, f2] hfs).2.2 (by simp)
    simpa using h
  · exact (c7_stack_discipline "GET hosts" hostsRows [] rfl).1 rfl

-- ## C4

/-- `takeWhile not-space` of a space-free token followed by a space reads
exactly the token. -/
theorem takeWhileToken (t r : List Char) (h : ∀ c ∈ t, isPySpace c = false) :
    (t ++ ' ' :: r).takeWhile (fun d => !(isPySpace d)) = t := by
  induction t with
  | nil =>
    rw [List.nil_append, List.takeWhile_cons]
    rw [show isPySpace ' ' = true from rfl]
    rfl
  | cons c cs ih =>
    rw [List.cons_append, List.takeWhile_cons, h c (by simp)]
    rw [show (!false) = true from rfl, if_pos rfl, ih (fun d hd => h d (by simp [hd]))]

/-- `dropWhile not-space` of a space-free token followed by a space leaves
the space and the remainder. -/
theorem dropWhileToken (t r : List Char) (h : ∀ c ∈ t, isPySpace c = false) :
    (t ++ ' ' :: r).dropWhile (fun d => !(isPySpace d)) = ' ' :: r := by
  induction t with
  | nil =>
    rw [List.nil_append, List.dropWhile_cons]
    rw [show isPySpace ' ' = true from rfl]
    rfl
  | cons c cs ih =>
    rw [List.cons_append, List.dropWhile_cons, h c (by simp)]
    rw [show (!false) = true from rfl, if_pos rfl, ih (fun d hd => h d (by simp [hd]))]

/-- `dropWhile space` does nothing to a list starting with a space-free
nonempty token. -/
theorem dropWhileWsToken (t X : List Char) (ht : t ≠ [])
    (hw : ∀ c ∈ t, isPySpace c = false) :
    (t ++ X).dropWhile isPySpace = t ++ X := by
  cases t with
  | nil => exact absurd rfl ht
  | cons c cs =>
    rw [List.cons_append, List.dropWhile_cons, hw c (by simp)]
    rfl

/-- Whitespace splitting of `" t1 t2 t3"` with `maxsplit = 2` yields the
three tokens (the third keeps any internal structure; here all three are
space-free and nonempty). -/
theorem splitWsGo_three (n : Nat) (t1 t2 t3 : List Char)
    (h1 : t1 ≠ []) (h1w : ∀ c ∈ t1, isPySpace c = false)
    (h2 : t2 ≠ []) (h2w : ∀ c ∈ t2, isPySpace c = false)
    (h3 : t3 ≠ []) (h3w : ∀ c ∈ t3, isPySpace c = false) :
    splitWsGo (n + 3) (some 2) (' ' :: (t1 ++ ' ' :: (t2 ++ ' ' :: t3))) = [t1, t2, t3] := by
  obtain ⟨c1, cs1, rfl⟩ : ∃ c cs, t1 = c :: cs := by
    cases t1 with
    | nil => exact absurd rfl h1
    | cons c cs => exact ⟨c, cs, rfl⟩
  obtain ⟨c2, cs2, rfl⟩ : ∃ c cs, t2 = c :: cs := by
    cases t2 with
    | nil => exact absurd rfl h2
    | cons c cs => exact ⟨c, cs, rfl⟩
  obtain ⟨c3, cs3, rfl⟩ : ∃ c cs, t3 = c :: cs := by
    cases t3 with
    | nil => exact absurd rfl h3
    | cons c cs => exact ⟨c, cs, rfl⟩
  rw [splitWsGo]
  rw [List.dropWhile_cons, show isPySpace ' ' = true from rfl, if_pos rfl,
    dropWhileWsToken (c1 :: cs1) _ (by simp) h1w, List.cons_append]
  dsimp only
  rw [← List.cons_append, takeWhileToken (c1 :: cs1) _ h1w, dropWhileToken (c1 :: cs1) _ h1w]
  rw [show Option.map (fun x => x - 1) (some 2) = some 1 from rfl]
  rw [splitWsGo]
  rw [List.dropWhile_cons, show isPySpace ' ' = true from rfl, if_pos rfl,
    dropWhileWsToken (c2 :: cs2) _ (by simp) h2w, List.cons_append]
  dsimp only
  rw [← List.cons_append, takeWhileToken (c2 :: cs2) _ h2w, dropWhileToken (c2 :: cs2) _ h2w]
  rw [show Option.map (fun x => x - 1) (some 1) = some 0 from rfl]
  rw [splitWsGo]
  rw [List.dropWhile_cons, show isPySpace ' ' = true from rfl, if_pos rfl]
  rw [show ((c3 :: cs3).dropWhile isPySpace) = c3 :: cs3 from by
    rw [List.dropWhile_cons, h3w c3 (by simp)]
    rfl]

/-- Splitting a built filter line after the 7-character `Filter:` prefix
yields exactly `[column, operator, value]` for space-free tokens. -/
theorem splitWs_mkFilterLine (col op v : String)
    (hcol : col.data ≠ []) (hcolw : ∀ ch ∈ col.data, isPySpace ch = false)
    (hop : op.data ≠ []) (hopw : ∀ ch ∈ op.data, isPySpace ch = false)
    (hv : v.data ≠ []) (hvw : ∀ ch ∈ v.data, isPySpace ch = false) :
    pySplitWs (some 2) (String.mk ((mkFilterLine col op v).data.drop 7)) = [col, op, v] := by
  have hdata : (mkFilterLine col op v).data.drop 7 =
      ' ' :: (col.data ++ ' ' :: (op.data ++ ' ' :: v.data)) := rfl
  rw [pySplitWs, hdata]
  have hlen : (' ' :: (col.data ++ ' ' :: (op.data ++ ' ' :: v.data))).length + 1 =
      (col.data.length + op.data.length + v.data.length + 1) + 3 := by
    simp [List.length_append]
    omega
  rw [hlen, splitWsGo_three _ col.data op.data v.data hcol hcolw
    (by simpa using hop) (by simpa using hopw) hv hvw]
  rfl

/-- C4: the `>=` filter operator is `cast_down(operator.le)` — applied to
a row value `a` and literal `b` it answers Python `a <= cast(b)` — and the
`<=` operator is `cast_down(operator.ge)`, answering `a >= cast(b)`
(i.e. `cast(b) <= a`); the literal is always cast to the row value's type
(`castValue a v`), never the reverse. -/
theorem c4_reversed_order_operators (col v : String) (r : Row) (a c : Value)
    (hcol : col.data ≠ []) (hcolw : ∀ ch ∈ col.data, isPySpace ch = false)
    (hv : v.data ≠ []) (hvw : ∀ ch ∈ v.data, isPySpace ch = false)
    (hla : List.lookup col r = some a)
    (hc : castValue a v = some c) :
    (∃ f, make_filter_func (mkFilterLine col ">=" v) = .ok f ∧ f r = pyLeB a c) ∧
    (∃ f, make_filter_func (mkFilterLine col "<=" v) = .ok f ∧ f r = pyLeB c a) := by
  constructor
  · refine ⟨fun entry =>
      match List.lookup col entry with
      | none => .error ("KeyError: " ++ pyReprStr col)
      | some a0 => cast_down pyLeB a0 v, ?_, ?_⟩
    · rw [make_filter_func,
        splitWs_mkFilterLine col ">=" v hcol hcolw (by decide) (by decide) hv hvw]
      rfl
    · dsimp only
      rw [hla]
      dsimp only [cast_down]
      rw [hc]
  · refine ⟨fun entry =>
      match List.lookup col entry with
      | none => .error ("KeyError: " ++ pyReprStr col)
      | some a0 => cast_down pyGeB a0 v, ?_, ?_⟩
    · rw [make_filter_func,
        splitWs_mkFilterLine col "<=" v hcol hcolw (by decide) (by decide) hv hvw]
      rfl
    · dsimp only
      rw [hla]
      dsimp only [cast_down]
      rw [hc]
      rfl

/-- C4 witness: `state >= 2` compiled on a row with `state = 3` answers
`3 <= 2`, i.e. `False`, and `state <= 2` answers `2 <= 3`, i.e. `True` —
the reversed-operand semantics at a concrete input. -/
theorem c4_reversed_order_operators_witness :
    ((∃ f, make_filter_func (mkFilterLine "state" ">=" "2") = .ok f ∧
        f [("state", Value.int 3)] = pyLeB (Value.int 3) (Value.int 2)) ∧
     (∃ f, make_filter_func (mkFilterLine "state" "<=" "2") = .ok f ∧
        f [("state", Value.int 3)] = pyLeB (Value.int 2) (Value.int 3))) ∧
    pyLeB (Value.int 3) (Value.int 2) = .ok false ∧
    pyLeB (Value.int 2) (Value.int 3) = .ok true := by
  refine ⟨?_, rfl, rfl⟩
  exact c4_reversed_order_operators "state" "2" [("state", Value.int 3)]
    (Value.int 3) (Value.int 2) (by decide) (by decide) (by decide) (by decide) rfl rfl

-- ## C8

/-- Reading the requested columns of one row fails when any requested
column is absent from it. -/
theorem buildRowResult_error (tbl : String) (cols : List String) (r : Row) (c : String)
    (hc : c ∈ cols) (hmiss : List.lookup c r = none) :
    ∃ msg, buildRowResult tbl cols r = .error msg := by
  induction cols with
  | nil => simp at hc
  | cons c0 cs ih =>
    rw [buildRowResult]
    cases hl : List.lookup c0 r with
    | none => exact ⟨_, rfl⟩
    | some v =>
      rcases List.mem_cons.mp hc with rfl | hmem
      · rw [hl] at hmiss
        cases hmiss
      · obtain ⟨msg, hmsg⟩ := ih hmem
        rw [hmsg]
        exact ⟨msg, rfl⟩

/-- Building the whole result fails when any of the surviving rows lacks
any of the requested columns. -/
theorem buildResult_error (tbl : String) (cols : List String) (rows : List Row)
    (r : Row) (c : String) (hr : r ∈ rows) (hc : c ∈ cols)
    (hmiss : List.lookup c r = none) :
    ∃ msg, buildResult tbl cols rows = .error msg := by
  induction rows with
  | nil => simp at hr
  | cons r0 rs ih =>
    rw [buildResult]
    rcases List.mem_cons.mp hr with rfl | hmem
    · obtain ⟨msg, hmsg⟩ := buildRowResult_error tbl cols r c hc hmiss
      rw [hmsg]
      exact ⟨msg, rfl⟩
    · cases hb : buildRowResult tbl cols r0 with
      | error e => exact ⟨e, rfl⟩
      | ok row =>
        obtain ⟨msg, hmsg⟩ := ih hmem
        rw [hmsg]
        exact ⟨msg, rfl⟩

/-- C8 (corrected statement refuted): declaring
`GET t\nColumns: b\nFilter: a = y` against a table whose FIRST row lacks
column `b` succeeds, because the filter drops that row before the column
check runs — so "a resolved column absent from one of its rows" does not
imply a declaration-time `KeyError`. -/
theorem c8_counterexample :
    (c8Conn.expect_query "GET t\nColumns: b\nFilter: a = y" .loose none).isOk = true ∧
    List.lookup "t" c8Conn.tables = some c8Rows ∧
    [("a", Value.str "x")] ∈ c8Rows ∧
    List.lookup "b" [("a", Value.str "x")] = none := by
  exact ⟨rfl, rfl, by simp [c8Rows], rfl⟩

/-- C8 (amended): a declaration over an unknown table with no explicit
`Columns:` line succeeds with an empty precomputed result; a declaration
over a stored table raises a `KeyError` at declaration time when a
resolved column is absent from one of the rows that SURVIVE the query's
filters (rows removed by the filters are never column-checked). -/
theorem c8_declaration_errors (conn : MockLiveStatusConnection) (q tbl : String)
    (mt : MatchType) (hq : pyRstripNl q = q) (ht : _table_of_query q = .ok (some tbl)) :
    (List.lookup tbl conn.tables = none → _column_of_query q = none →
      conn.expect_query q mt none =
        .ok { conn with expected_queries := conn.expected_queries ++ [⟨q, [], [], mt⟩] }) ∧
    (∀ rows surv r c,
      List.lookup tbl conn.tables = some rows →
      evaluate_filter q rows = .ok surv →
      r ∈ surv → c ∈ resolvedColumns conn.tables (some tbl) q →
      List.lookup c r = none →
      ∃ msg, conn.expect_query q mt none = .error msg) := by
  constructor
  · intro hlk hcolq
    have hres : resolvedColumns conn.tables (some tbl) q = [] := by
      rw [resolvedColumns, hcolq, hlk]
      rfl
    rw [MockLiveStatusConnection.expect_query, hq, ht]
    dsimp only
    rw [hres]
    rfl
  · intro rows surv r c hlk heval hr hcmem hmiss
    have hcols : (resolvedColumns conn.tables (some tbl) q).isEmpty = false := by
      cases hcc : resolvedColumns conn.tables (some tbl) q with
      | nil => rw [hcc] at hcmem; simp at hcmem
      | cons x xs => rfl
    obtain ⟨msg, hmsg⟩ :=
      buildResult_error tbl (resolvedColumns conn.tables (some tbl) q) surv r c hr hcmem hmiss
    refine ⟨msg, ?_⟩
    rw [MockLiveStatusConnection.expect_query, hq, ht]
    dsimp only
    rw [hcols, if_neg Bool.false_ne_true, hlk]
    dsimp only
    rw [heval]
    dsimp only
    rw [hmsg]

/-- C8 witness: the amended theorem applied to an unknown table (succeeds
empty) and to a stored table whose surviving row lacks the requested
column (raises). -/
theorem c8_declaration_errors_witness :
    emptyConn.expect_query "GET nope" .loose none =
      .ok { emptyConn with expected_queries := [⟨"GET nope", [], [], .loose⟩] } ∧
    ∃ msg, c8Conn.expect_query "GET t\nColumns: b" .loose none = .error msg := by
  constructor
  · exact (c8_declaration_errors emptyConn "GET nope" "nope" .loose rfl rfl).1 rfl rfl
  · exact (c8_declaration_errors c8Conn "GET t\nColumns: b" "t" .loose rfl rfl).2
      c8Rows c8Rows [("a", Value.str "x")] "b" rfl rfl (by simp [c8Rows]) (by decide) rfl

-- ## C1

/-- A declared query always matches itself under strict mode. -/
theorem compare_self_strict (q : String) : _compare q q .strict = some true := by
  rw [_compare]
  simp

/-- A declared query always matches itself under loose mode: each of its
non-`Cache: ` lines is one of its own lines. -/
theorem compare_self_loose (q : String) : _compare q q .loose = some true := by
  rw [_compare]
  exact congrArg some (List.all_eq_true.mpr (fun line hline => by simp [hline]))

/-- A colon-well-formed query unpacks successfully. -/
theorem unpack_some_of_colonWF (q : String) (h : colonWF q) :
    ∃ hs, _unpack_headers q = some hs :=
  ⟨_, unpackGo_filter (pySplitlines q) [] h⟩

/-- Dropping a prefix cannot lengthen a list. -/
theorem lengthDropWhileLe {α : Type} (p : α → Bool) (l : List α) :
    (l.dropWhile p).length ≤ l.length := by
  induction l with
  | nil => exact Nat.le_refl 0
  | cons a l ih =>
    rw [List.dropWhile_cons]
    split
    · exact Nat.le_succ_of_le ih
    · exact Nat.le_refl _

/-- A string equal to its own `rstrip("\n")` does not end in `"\n\n"`. -/
theorem rstripNl_no_newline (q : String) (hq : pyRstripNl q = q) :
    strEnds q "\n\n" = false := by
  by_contra hcon
  rw [Bool.not_eq_false, strEnds] at hcon
  have hsuf : ("\n\n" : String).data <:+ q.data := List.isSuffixOf_iff_suffix.mp hcon
  obtain ⟨pre, hpre⟩ := hsuf
  have hrev : q.data.reverse = '\n' :: '\n' :: pre.reverse := by
    rw [← hpre]
    rw [List.reverse_append]
    rfl
  have hdata : (q.data.reverse.dropWhile (fun c => c == '\n')).reverse = q.data :=
    congrArg String.data hq
  have hlen1 : (q.data.reverse.dropWhile (fun c => c == '\n')).length ≤ pre.reverse.length := by
    rw [hrev]
    rw [List.dropWhile_cons, show (('\n' : Char) == '\n') = true from rfl]
    rw [if_pos rfl, List.dropWhile_cons, show (('\n' : Char) == '\n') = true from rfl, if_pos rfl]
    exact lengthDropWhileLe _ _
  have hlen2 : q.data.length = pre.reverse.length + 2 := by
    have := congrArg List.length hrev
    rw [List.length_reverse] at this
    simpa using this
  have hlen3 : (q.data.reverse.dropWhile (fun c => c == '\n')).reverse.length = q.data.length :=
    congrArg List.length hdata
  rw [List.length_reverse] at hlen3
  omega

/-- Reading the whole buffer just after a response was buffered yields the
whole frame. -/
theorem recvAll_full (conn : MockLiveStatusConnection) (content : String)
    (h : conn.last_response = some (content, 0)) :
    recvAll conn =
      ({ conn with last_response := some (content, content.data.length) }, .ok content) := by
  rw [recvAll, h]
  dsimp only
  rw [MockLiveStatusConnection.socket_recv, h]
  dsimp only
  rw [List.drop_zero, List.take_length, Nat.zero_add]

/-- Replaying the expectation queue: submitting each queued entry's own
query text in order (strict or loose mode, colon-well-formed, newline-
normalized) makes every send succeed and every full receive yield the
framed precomputed response of the popped entry. -/
theorem runQueries_replay (L : List Expectation) :
    ∀ (conn : MockLiveStatusConnection) (b : Bool),
    conn.expected_queries = L →
    conn.expect_status_query = some b →
    (∀ e ∈ L, e.match_type ≠ MatchType.ellipsis ∧ colonWF e.query ∧
      pyRstripNl e.query = e.query) →
    runQueries conn (L.map Expectation.query) =
      .ok (L.map (frameOfEntry conn.prepend_site)) := by
  induction L with
  | nil =>
    intro conn b hq hctx hwf
    rfl
  | cons e rest ih =>
    intro conn b hq hctx hwf
    obtain ⟨hwe1, hwe2, hwe3⟩ := hwf e (by simp)
    obtain ⟨hs, hhs⟩ := unpack_some_of_colonWF e.query hwe2
    have hcmp : _compare e.query e.query e.match_type = some true := by
      cases hmt : e.match_type with
      | strict => exact compare_self_strict e.query
      | loose => exact compare_self_loose e.query
      | ellipsis => exact absurd hmt hwe1
    rw [List.map_cons, runQueries]
    rw [MockLiveStatusConnection.socket_send]
    rw [rstripNl_no_newline e.query hwe3]
    rw [if_neg Bool.false_ne_true]
    rw [MockLiveStatusConnection._lookup_next_query, hctx, hhs, hq]
    dsimp only
    rw [hcmp]
    dsimp only
    rw [recvAll_full _ _ rfl]
    dsimp only
    rw [ih _ b rfl rfl (fun e' he' => hwf e' (by simp [he']))]
    rw [List.map_cons]
    dsimp only
    rw [frameOfEntry, showColumnsOf, hhs]

/-- A successful `expect_query` (without `force_pos`) only appends one
expectation — with the normalized query text and the given match mode —
and leaves every other field of the connection unchanged. -/
theorem expect_query_shape (conn : MockLiveStatusConnection) (q : String) (mt : MatchType)
    (conn' : MockLiveStatusConnection) (h : conn.expect_query q mt none = .ok conn') :
    conn'.prepend_site = conn.prepend_site ∧
    conn'.expect_status_query = conn.expect_status_query ∧
    conn'.tables = conn.tables ∧
    ∃ cols res, conn'.expected_queries =
      conn.expected_queries ++ [⟨pyRstripNl q, cols, res, mt⟩] := by
  rw [MockLiveStatusConnection.expect_query] at h
  dsimp only at h
  split at h
  · cases h
  · split at h
    · cases h
      exact ⟨rfl, rfl, rfl, _, _, rfl⟩
    · split at h
      · cases h
        exact ⟨rfl, rfl, rfl, _, _, rfl⟩
      · split at h
        · cases h
        · split at h
          · cases h
          · split at h
            · cases h
            · cases h
              exact ⟨rfl, rfl, rfl, _, _, rfl⟩

/-- A successful `declareAll` appends one expectation per declaration, in
order, carrying the normalized query text and mode, and leaves the other
connection fields unchanged. -/
theorem declareAll_shape (decls : List (String × MatchType)) :
    ∀ conn conn', declareAll conn decls = .ok conn' →
    conn'.prepend_site = conn.prepend_site ∧
    conn'.expect_status_query = conn.expect_status_query ∧
    conn'.tables = conn.tables ∧
    ∃ es, conn'.expected_queries = conn.expected_queries ++ es ∧
      es.map (fun e => (e.query, e.match_type)) =
        decls.map (fun d => (pyRstripNl d.1, d.2)) := by
  induction decls with
  | nil =>
    intro conn conn' h
    cases h
    exact ⟨rfl, rfl, rfl, [], by simp, rfl⟩
  | cons d rest ih =>
    intro conn conn' h
    obtain ⟨q, m⟩ := d
    rw [declareAll] at h
    cases hd : conn.expect_query q m none with
    | error e =>
      rw [hd] at h
      cases h
    | ok c1 =>
      rw [hd] at h
      dsimp only at h
      obtain ⟨hp, hsq, ht, cols, res, hq⟩ := expect_query_shape conn q m c1 hd
      obtain ⟨hp2, hs2, ht2, es, hq2, hmap⟩ := ih c1 conn' h
      refine ⟨hp2.trans hp, hs2.trans hsq, ht2.trans ht,
        ⟨pyRstripNl q, cols, res, m⟩ :: es, ?_, ?_⟩
      · rw [hq2, hq, List.append_assoc]
        rfl
      · rw [List.map_cons, hmap, List.map_cons]

/-- Transfer of the per-declaration side conditions to the queued entries
they produce. -/
theorem entries_wf (es : List Expectation) :
    ∀ (decls : List (String × MatchType)),
    es.map (fun e => (e.query, e.match_type)) =
      decls.map (fun d => (pyRstripNl d.1, d.2)) →
    (∀ d ∈ decls, d.2 ≠ MatchType.ellipsis ∧ colonWF d.1 ∧ pyRstripNl d.1 = d.1) →
    (∀ e ∈ es, e.match_type ≠ MatchType.ellipsis ∧ colonWF e.query ∧
      pyRstripNl e.query = e.query) ∧
    es.map Expectation.query = decls.map Prod.fst := by
  induction es with
  | nil =>
    intro decls hmap hwf
    cases decls with
    | nil => exact ⟨by simp, rfl⟩
    | cons d ds => simp at hmap
  | cons e es ih =>
    intro decls hmap hwf
    cases decls with
    | nil => simp at hmap
    | cons d ds =>
      rw [List.map_cons, List.map_cons] at hmap
      injection hmap with h1 h2
      have hq : e.query = pyRstripNl d.1 := congrArg Prod.fst h1
      have hm : e.match_type = d.2 := congrArg Prod.snd h1
      obtain ⟨hd1, hd2, hd3⟩ := hwf d (by simp)
      obtain ⟨ihe, ihq⟩ := ih ds h2 (fun d' hd' => hwf d' (by simp [hd']))
      constructor
      · intro e' he'
        rcases List.mem_cons.mp he' with rfl | hmem
        · refine ⟨by rw [hm]; exact hd1, ?_, ?_⟩
          · rw [hq, hd3]
            exact hd2
          · rw [hq, hd3]
            exact hd3
        · exact ihe e' hmem
      · rw [List.map_cons, List.map_cons, ihq, hq, hd3]

/-- C1 (amended): for declarations in strict or loose mode whose text is
newline-normalized and colon-well-formed, submitting the declared queries
through `socket_send` in exactly the declared order and text never raises,
and each full receive yields the framed precomputed response of the
corresponding declaration.  (The original claim fails for ellipsis mode —
a query carrying regex metacharacters need not match itself — and for
queries with a `Key:value` line lacking the space, where even a strict
match raises during header unpacking; see the counterexample.) -/
theorem c1_ordered_replay (decls : List (String × MatchType))
    (conn0 conn1 : MockLiveStatusConnection) (b : Bool)
    (h0 : conn0.expected_queries = [])
    (hctx : conn0.expect_status_query = some b)
    (hdecl : declareAll conn0 decls = .ok conn1)
    (hwf : ∀ d ∈ decls, d.2 ≠ MatchType.ellipsis ∧ colonWF d.1 ∧ pyRstripNl d.1 = d.1) :
    runQueries conn1 (decls.map Prod.fst) =
      .ok (conn1.expected_queries.map (frameOfEntry conn1.prepend_site)) := by
  obtain ⟨hp, hsq, ht, es, hq, hmap⟩ := declareAll_shape decls conn0 conn1 hdecl
  rw [h0, List.nil_append] at hq
  obtain ⟨hwfe, hqs⟩ := entries_wf es decls hmap hwf
  rw [← hqs, hq]
  exact runQueries_replay es conn1 b hq (by rw [hsq, hctx]) hwfe

/-- C1: the claim as stated is false on two counts.  In ellipsis mode the
declared query `"(a)"` does not match itself (its parentheses become a
regex group), so sending the declared text raises a mismatch.  And header
unpacking runs before matching: even a strict-mode declaration
`"GET hosts\nColumnHeaders:on"` (no space after the colon), submitted with
exactly the declared text, raises a `ValueError` from `_unpack_headers`. -/
theorem c1_counterexample :
    ((declareAll liveConn [("(a)", .ellipsis)]).toOption.map
        (fun c => (c.socket_send "(a)").2)) =
      some (.error ("RuntimeError: Expected query (ellipsis):\n * '(a)'\n" ++
        "Got query:\n * '(a)'")) ∧
    ((declareAll liveConn [("GET hosts\nColumnHeaders:on", .strict)]).toOption.map
        (fun c => (c.socket_send "GET hosts\nColumnHeaders:on").2)) =
      some (.error "ValueError: not enough values to unpack (expected 2, got 1)") := by
  exact ⟨rfl, rfl⟩

/-- C1 witness: the amended theorem applied to the two declarations of the
source's first docstring example. -/
theorem c1_ordered_replay_witness :
    ∃ conn1, declareAll liveConn liveDecls = .ok conn1 ∧
      runQueries conn1 (liveDecls.map Prod.fst) =
        .ok (conn1.expected_queries.map (frameOfEntry conn1.prepend_site)) := by
  refine ⟨_, rfl, ?_⟩
  exact c1_ordered_replay liveDecls liveConn _ false rfl rfl rfl (by decide)
